import Mathlib

/-
Verification of the RobustMQ MQTT broker admin control plane
(`src/mqtt-broker/src/admin/mod.rs` and `src/mqtt-broker/src/server/grpc/admin.rs`).

The broker's runtime registries (connection manager, cache manager, subscribe
manager) and the metadata client live outside the admin layer; per §2/§6 of the
design document they expose only size/iteration/get accessors.  They are
embedded here as explicit state: each registry is an association list or plain
list, and the outcome of each metadata-client round trip is carried in the
state as an `Except` value.  Machine `u32` counters are modelled as `Nat`
reduced modulo 2^32 at the point of the `as u32` cast.
-/

namespace RobustMQ

/-- A broker node as returned by the metadata service's `node_list` call
(only the `node_ip` and `node_id` fields are read by the admin layer). -/
structure BrokerNode where
  node_ip : String
  node_id : Nat
deriving Repr, DecidableEq

/-- The reply-side node representation (`BrokerNodeRaw`); the admin layer
obtains these by converting the locally cached node objects and copies them
into the snapshot unchanged, so the conversion is embedded as the cache
already holding the raw form. -/
structure BrokerNodeRaw where
  node_id : Nat
  node_addr : String
deriving Repr, DecidableEq

/-- A cached MQTT-level connection record (`MQTTConnection`).  The admin layer
treats it as an opaque value that is serialized into the reply; per §6 the
serialization helper can fail on non-serializable input, which is embedded as
the `serializable` flag. -/
structure MQTTConnection where
  payload : String
  serializable : Bool
deriving Repr, DecidableEq

/-- A live network connection record (`NetworkConnection`): the admin layer
reads its id, its transport type, its optionally negotiated protocol and its
source address. -/
structure NetworkConnection where
  connection_id : Nat
  connection_type : String
  protocol : Option String
  addr : String
deriving Repr, DecidableEq

/-- The subscription registry (`SubscribeManager`): seven independently sized
tables, one per subscription kind; the admin layer only reads their sizes. -/
structure SubscribeManager where
  subscribe_list : List String
  exclusive_push : List String
  exclusive_push_thread : List String
  share_leader_push : List String
  share_leader_push_thread : List String
  share_follower_resub : List String
  share_follower_resub_thread : List String
deriving Repr, DecidableEq

/-- The connection registry (`ConnectionManager`): the table of live
connections keyed by connection id, plus the four per-transport socket
tables.  The admin layer reads `connections.len()` and iterates the same
table through `list_connect()`. -/
structure ConnectionManager where
  connections : List (Nat × NetworkConnection)
  tcp_write_list : List Nat
  tcp_tls_write_list : List Nat
  websocket_write_list : List Nat
  quic_write_list : List Nat
deriving Repr, DecidableEq

/-- The local cache (`CacheManager`): session table, topic table, cached node
list, per-connection enriched records, and the flapping-detect feature flag
of the cached cluster config. -/
structure CacheManager where
  session_info : List String
  topic_info : List String
  node_list : List BrokerNodeRaw
  connection_info : List (Nat × MQTTConnection)
  flapping_detect : Bool
deriving Repr, DecidableEq

/-- The full state an admin request observes: the broker configuration's
cluster name, the outcomes of the two metadata-client calls made by the
status aggregator, the three runtime registries, and the availability of the
metadata service for mutating calls. -/
structure BrokerState where
  cluster_name : String
  node_list_res : Except String (List BrokerNode)
  place_status_res : Except String String
  subscribe_manager : SubscribeManager
  connection_manager : ConnectionManager
  cache_manager : CacheManager
  metadata_available : Bool
  metadata_flapping_detect : Bool
deriving Repr

/-- The cluster-status snapshot (`ClusterStatusReply`), field for field as the
source constructs it. -/
structure ClusterStatusReply where
  cluster_name : String
  message_in_rate : Nat
  message_out_rate : Nat
  connection_num : Nat
  session_num : Nat
  subscribe_num : Nat
  exclusive_subscribe_num : Nat
  exclusive_subscribe_thread_num : Nat
  share_subscribe_leader_num : Nat
  share_subscribe_leader_thread_num : Nat
  share_subscribe_resub_num : Nat
  share_subscribe_follower_thread_num : Nat
  topic_num : Nat
  nodes : List BrokerNodeRaw
  placement_status : String
  tcp_connection_num : Nat
  tls_connection_num : Nat
  websocket_connection_num : Nat
  quic_connection_num : Nat
deriving Repr, DecidableEq

/-- One row of the connection-listing reply (`ListConnectionRaw`). -/
structure ListConnectionRaw where
  connection_id : Nat
  connection_type : String
  protocol : String
  source_addr : String
  info : String
deriving Repr, DecidableEq

/-- The connection-listing reply (`ListConnectionReply`); the source builds it
from `default` and fills `list_connection_raw`, the only field it observes. -/
structure ListConnectionReply where
  list_connection_raw : List ListConnectionRaw
deriving Repr, DecidableEq

/-- `EnableFlappingDetectRequest` (the field the handler reads). -/
structure EnableFlappingDetectRequest where
  is_enable : Bool
deriving Repr, DecidableEq

/-- `EnableFlappingDetectReply` as constructed in `enable_flapping_detect_by_req`. -/
structure EnableFlappingDetectReply where
  is_enable : Bool
deriving Repr, DecidableEq

/-- `SetClusterConfigRequest` (the fields the facade reads). -/
structure SetClusterConfigRequest where
  feature_name : String
  is_enable : Bool
deriving Repr, DecidableEq

/-- `SetClusterConfigReply` as constructed in `mqtt_broker_set_cluster_config`. -/
structure SetClusterConfigReply where
  feature_name : String
  is_enable : Bool
deriving Repr, DecidableEq

/-- A tonic transport status as the facade produces it: `Status::internal(msg)`
or `Status::cancelled(msg)`. -/
inductive TStatus where
  | internal (msg : String)
  | cancelled (msg : String)
deriving Repr, DecidableEq

/-- The `as u32` cast applied to every registry size in the snapshot. -/
def u32 (n : Nat) : Nat := n % 2 ^ 32

/-- `true` exactly when the computation failed (`Err`/`Status` path). -/
def isErr {α : Type} : Except String α → Bool
  | .error _ => true
  | .ok _ => false

/-- Modelled from the spec: the cache manager's per-entity get accessor
(`CacheManager::get_connection`, not part of the excerpt); §6 describes the
cache as exposing per-entity get over uniquely keyed records, embedded as
first-match lookup in the association list. -/
def get_connection : List (Nat × MQTTConnection) → Nat → Option MQTTConnection
  | [], _ => none
  | (k, m) :: rest, key => if k = key then some m else get_connection rest key

/-- Modelled from the spec: the connection registry's iteration accessor
(`ConnectionManager::list_connect`, not part of the excerpt); §6 gives the
registry as one table exposing `iterate() -> (key, record)`, and the same
table backs the `connections.len()` size read. -/
def list_connect (cm : ConnectionManager) : List (Nat × NetworkConnection) :=
  cm.connections

/-- Modelled from the spec: the serialization helper
(`common_base::tools::serialize_value`, not part of the excerpt); §6 says it
fails exactly on non-serializable input, embedded by the record's
`serializable` flag. -/
def serialize_value (m : MQTTConnection) : Except String String :=
  if m.serializable then .ok m.payload else .error "Serialization failed"

/-- `cluster_status_by_req` (admin/mod.rs): query the metadata client for the
node list (the formatted labels are computed and then unused by the reply),
query placement health, then assemble the snapshot from the sizes of the
registries; each metadata failure propagates via `?`. -/
def clusterStatusByReq (s : BrokerState) : Except String ClusterStatusReply :=
  match s.node_list_res with
  | .error e => .error e
  | .ok data =>
    let _broker_node_list :=
      data.map (fun node => node.node_ip ++ "@" ++ toString node.node_id)
    match s.place_status_res with
    | .error e => .error e
    | .ok placement_status =>
      let node_list := s.cache_manager.node_list
      .ok {
        cluster_name := s.cluster_name
        message_in_rate := 10
        message_out_rate := 3
        connection_num := u32 s.connection_manager.connections.length
        session_num := u32 s.cache_manager.session_info.length
        subscribe_num := u32 s.subscribe_manager.subscribe_list.length
        exclusive_subscribe_num := u32 s.subscribe_manager.exclusive_push.length
        exclusive_subscribe_thread_num := u32 s.subscribe_manager.exclusive_push_thread.length
        share_subscribe_leader_num := u32 s.subscribe_manager.share_leader_push.length
        share_subscribe_leader_thread_num := u32 s.subscribe_manager.share_leader_push_thread.length
        share_subscribe_resub_num := u32 s.subscribe_manager.share_follower_resub.length
        share_subscribe_follower_thread_num :=
          u32 s.subscribe_manager.share_follower_resub_thread.length
        topic_num := u32 s.cache_manager.topic_info.length
        nodes := node_list
        placement_status := placement_status
        tcp_connection_num := u32 s.connection_manager.tcp_write_list.length
        tls_connection_num := u32 s.connection_manager.tcp_tls_write_list.length
        websocket_connection_num := u32 s.connection_manager.websocket_write_list.length
        quic_connection_num := u32 s.connection_manager.quic_write_list.length
      }

/-- The subscription-count fields of the snapshot, in source order. -/
def subscriptionCounters (r : ClusterStatusReply) : List Nat :=
  [r.subscribe_num, r.exclusive_subscribe_num, r.exclusive_subscribe_thread_num,
   r.share_subscribe_leader_num, r.share_subscribe_leader_thread_num,
   r.share_subscribe_resub_num, r.share_subscribe_follower_thread_num]

/-- The sizes of the subscription registry's tables, in the order the snapshot
reads them. -/
def subscriptionTableSizes (m : SubscribeManager) : List Nat :=
  [m.subscribe_list.length, m.exclusive_push.length, m.exclusive_push_thread.length,
   m.share_leader_push.length, m.share_leader_push_thread.length,
   m.share_follower_resub.length, m.share_follower_resub_thread.length]

/-- One reply row as the loop body of `list_connection_by_req` constructs it
from a registry record and the serialized cache info. -/
def connectionRawOf (value : NetworkConnection) (mqtt_info : String) : ListConnectionRaw :=
  { connection_id := value.connection_id
    connection_type := value.connection_type
    protocol :=
      match value.protocol with
      | some p => p
      | none => "None"
    source_addr := value.addr
    info := mqtt_info }

/-- The loop of `list_connection_by_req`: for each `(key, value)` pair of the
registry, look the key up in the cache; a hit is serialized (a serialization
failure aborts the whole computation via `?`), a miss is skipped. -/
def buildConnectionRaws (cache : List (Nat × MQTTConnection)) :
    List (Nat × NetworkConnection) → Except String (List ListConnectionRaw)
  | [] => .ok []
  | (key, value) :: rest =>
    match get_connection cache key with
    | some mqtt_value =>
      match serialize_value mqtt_value with
      | .error e => .error e
      | .ok mqtt_info =>
        match buildConnectionRaws cache rest with
        | .error e => .error e
        | .ok raws => .ok (connectionRawOf value mqtt_info :: raws)
    | none => buildConnectionRaws cache rest

/-- `list_connection_by_req` (admin/mod.rs). -/
def listConnectionByReq (s : BrokerState) : Except String ListConnectionReply :=
  match buildConnectionRaws s.cache_manager.connection_info (list_connect s.connection_manager) with
  | .error e => .error e
  | .ok raws => .ok { list_connection_raw := raws }

/-- Modelled from the spec: the inner flapping-detect handler
(`handler::flapping_detect::enable_flapping_detect`, not part of the
excerpt); §3 gives the feature flag as a cluster-wide boolean set operation,
§4.2 as metadata-write-first then cache update, and §5/§7 let it fail only
when the metadata service is unavailable, in which case nothing changes. -/
def enable_flapping_detect (s : BrokerState) (req : EnableFlappingDetectRequest) :
    BrokerState × Except String Unit :=
  if s.metadata_available then
    ({ s with
        metadata_flapping_detect := req.is_enable
        cache_manager := { s.cache_manager with flapping_detect := req.is_enable } },
     .ok ())
  else
    (s, .error "metadata service unavailable")

/-- `enable_flapping_detect_by_req` (admin/mod.rs): success echoes the
request's `is_enable`; failure maps to `Status::cancelled` carrying the
error's description. -/
def enableFlappingDetectByReq (s : BrokerState) (req : EnableFlappingDetectRequest) :
    BrokerState × Except TStatus EnableFlappingDetectReply :=
  match enable_flapping_detect s req with
  | (s2, .ok _) => (s2, .ok { is_enable := req.is_enable })
  | (s2, .error e) => (s2, .error (.cancelled e))

/-- `mqtt_broker_set_cluster_config` (grpc/admin.rs): the inner handler's
outcome is abstracted as an argument; failure maps to `Status::internal`,
success acknowledges with the request's feature name and `is_enable`
hard-coded to `true`. -/
def mqttBrokerSetClusterConfig (inner : Except String Unit)
    (req : SetClusterConfigRequest) : Except TStatus SetClusterConfigReply :=
  match inner with
  | .error e => .error (.internal e)
  | .ok _ => .ok { feature_name := req.feature_name, is_enable := true }

/-- The RPC methods of the admin facade (grpc/admin.rs), in source order. -/
inductive AdminOp where
  | setClusterConfig
  | getClusterConfig
  | clusterStatus
  | createUser
  | deleteUser
  | listUser
  | listClient
  | listSession
  | listAcl
  | createAcl
  | deleteAcl
  | listBlacklist
  | deleteBlacklist
  | createBlacklist
  | enableFlappingDetect
  | setSystemAlarmConfig
  | listSystemAlarm
  | listConnection
  | listSlowSubscribe
  | listTopic
  | deleteTopicRewriteRule
  | createTopicRewriteRule
  | getAllTopicRewriteRule
  | listConnector
  | createConnector
  | deleteConnector
  | updateConnector
  | listSchema
  | createSchema
  | updateSchema
  | deleteSchema
  | listBindSchema
  | bindSchema
  | unbindSchema
  | setAutoSubscribeRule
  | deleteAutoSubscribeRule
  | listAutoSubscribeRule
deriving Repr, DecidableEq

/-- How each facade method converts the textual description of an inner
failure into the transport status it returns, read off the source: most
methods wrap it with `Status::internal`, `cluster_status` and the
flapping-detect toggle wrap it with `Status::cancelled`, and
`mqtt_broker_list_connection` / `mqtt_broker_list_slow_subscribe` perform no
conversion of their own (the inner function already returns a `Status`),
embedded as `none`. -/
def errorStatusOf : AdminOp → String → Option TStatus
  | .clusterStatus, e => some (.cancelled e)
  | .enableFlappingDetect, e => some (.cancelled e)
  | .listConnection, _ => none
  | .listSlowSubscribe, _ => none
  | _, e => some (.internal e)

/-- The list RPCs of the facade whose reply message is built by an exhaustive
struct literal in the source (so its exact field set is visible there). -/
inductive ListOp where
  | listUser
  | listClient
  | listSession
  | listAcl
  | listBlacklist
  | listTopic
  | getAllTopicRewriteRule
  | listConnector
  | listSchema
  | listBindSchema
  | listAutoSubscribeRule
deriving Repr, DecidableEq

/-- The field names of each list RPC's reply message, exactly as the facade's
struct literals spell them. -/
def listReplyFields : ListOp → List String
  | .listUser => ["users", "total_count"]
  | .listClient => ["clients", "total_count"]
  | .listSession => ["sessions", "total_count"]
  | .listAcl => ["acls", "total_count"]
  | .listBlacklist => ["blacklists", "total_count"]
  | .listTopic => ["topics", "total_count"]
  | .getAllTopicRewriteRule => ["rewrite_topic_rules", "total_count"]
  | .listConnector => ["connectors"]
  | .listSchema => ["schemas"]
  | .listBindSchema => ["schema_binds"]
  | .listAutoSubscribeRule => ["auto_subscribe_rules"]

/-! ### Concrete broker states used by the witnesses -/

/-- A live TCP connection with negotiated protocol. -/
def c1 : NetworkConnection :=
  { connection_id := 1, connection_type := "tcp", protocol := some "MQTT5",
    addr := "127.0.0.1:40001" }

/-- A live WebSocket connection still before protocol negotiation. -/
def c2 : NetworkConnection :=
  { connection_id := 2, connection_type := "websocket", protocol := none,
    addr := "127.0.0.1:40002" }

/-- A second live TCP connection. -/
def c3 : NetworkConnection :=
  { connection_id := 3, connection_type := "tcp", protocol := some "MQTT4",
    addr := "127.0.0.1:40003" }

/-- A serializable cached record. -/
def m1 : MQTTConnection := { payload := "info1", serializable := true }

/-- A second serializable cached record. -/
def m2 : MQTTConnection := { payload := "info2", serializable := true }

/-- A cached record whose serialization fails. -/
def mBad : MQTTConnection := { payload := "bad", serializable := false }

/-- A healthy broker state: three live connections in the registry, enriched
cache records for two of them, both metadata calls succeeding. -/
def s0 : BrokerState :=
  { cluster_name := "robustmq"
    node_list_res := .ok [{ node_ip := "127.0.0.1", node_id := 1 }]
    place_status_res := .ok "running"
    subscribe_manager :=
      { subscribe_list := ["a"], exclusive_push := ["b", "c"], exclusive_push_thread := []
        share_leader_push := ["d"], share_leader_push_thread := []
        share_follower_resub := [], share_follower_resub_thread := ["e"] }
    connection_manager :=
      { connections := [(1, c1), (2, c2), (3, c3)], tcp_write_list := [1, 3]
        tcp_tls_write_list := [], websocket_write_list := [2], quic_write_list := [] }
    cache_manager :=
      { session_info := ["s1", "s2"], topic_info := ["t1"]
        node_list := [{ node_id := 1, node_addr := "127.0.0.1:9981" }]
        connection_info := [(1, m1), (2, m2)], flapping_detect := false }
    metadata_available := true
    metadata_flapping_detect := false }

/-- The snapshot `clusterStatusByReq` produces on `s0`. -/
def r0 : ClusterStatusReply :=
  { cluster_name := "robustmq"
    message_in_rate := 10
    message_out_rate := 3
    connection_num := 3
    session_num := 2
    subscribe_num := 1
    exclusive_subscribe_num := 2
    exclusive_subscribe_thread_num := 0
    share_subscribe_leader_num := 1
    share_subscribe_leader_thread_num := 0
    share_subscribe_resub_num := 0
    share_subscribe_follower_thread_num := 1
    topic_num := 1
    nodes := [{ node_id := 1, node_addr := "127.0.0.1:9981" }]
    placement_status := "running"
    tcp_connection_num := 2
    tls_connection_num := 0
    websocket_connection_num := 1
    quic_connection_num := 0 }

/-- `s0` with the node-list metadata call failing. -/
def sDown : BrokerState := { s0 with node_list_res := .error "placement service unreachable" }

/-- `s0` with a cached connection record that cannot be serialized. -/
def s8 : BrokerState :=
  { s0 with
      connection_manager :=
        { s0.connection_manager with connections := [(1, c1), (2, c2), (4, c3)] }
      cache_manager :=
        { s0.cache_manager with connection_info := [(1, m1), (4, mBad)] } }

/-- A disable request for the flapping-detect toggle. -/
def req9 : EnableFlappingDetectRequest := { is_enable := false }

/-- The state `enableFlappingDetectByReq` leaves behind after applying `req9`
to `s0`. -/
def s0set : BrokerState :=
  { s0 with
      metadata_flapping_detect := false
      cache_manager := { s0.cache_manager with flapping_detect := false } }

/-! ### Helper lemmas -/

/-- Inverting a successful snapshot: every count field of the reply is the
`u32`-cast size of the registry the source reads it from. -/
theorem clusterStatus_ok_counts (s : BrokerState) (r : ClusterStatusReply)
    (hok : clusterStatusByReq s = .ok r) :
    r.connection_num = u32 s.connection_manager.connections.length ∧
    r.session_num = u32 s.cache_manager.session_info.length ∧
    subscriptionCounters r = (subscriptionTableSizes s.subscribe_manager).map u32 ∧
    r.topic_num = u32 s.cache_manager.topic_info.length ∧
    r.tcp_connection_num = u32 s.connection_manager.tcp_write_list.length ∧
    r.tls_connection_num = u32 s.connection_manager.tcp_tls_write_list.length ∧
    r.websocket_connection_num = u32 s.connection_manager.websocket_write_list.length ∧
    r.quic_connection_num = u32 s.connection_manager.quic_write_list.length := by
  unfold clusterStatusByReq at hok
  cases hnl : s.node_list_res with
  | error e => rw [hnl] at hok; exact absurd hok (by simp)
  | ok data =>
    rw [hnl] at hok
    cases hps : s.place_status_res with
    | error e => rw [hps] at hok; exact absurd hok (by simp)
    | ok ps =>
      rw [hps] at hok
      simp only [Except.ok.injEq] at hok
      subst hok
      simp [subscriptionCounters, subscriptionTableSizes]

/-- When every cache record hit by the registry walk serializes, the loop of
`list_connection_by_req` succeeds and returns exactly the rows of the
registry connections that have a cache record, in registry order. -/
theorem buildConnectionRaws_eq_of_ser (cache : List (Nat × MQTTConnection))
    (l : List (Nat × NetworkConnection))
    (hser : ∀ kv ∈ l,
      Option.all (fun m => m.serializable) (get_connection cache kv.1) = true) :
    buildConnectionRaws cache l =
      .ok (l.filterMap (fun kv =>
        (get_connection cache kv.1).map (fun m => connectionRawOf kv.2 m.payload))) := by
  induction l with
  | nil => rfl
  | cons kv0 rest ih =>
    obtain ⟨key, value⟩ := kv0
    have hser' : ∀ kv ∈ rest,
        Option.all (fun m => m.serializable) (get_connection cache kv.1) = true :=
      fun kv hkv => hser kv (List.mem_cons_of_mem _ hkv)
    have hhead := hser (key, value) (List.mem_cons_self _ _)
    cases hg : get_connection cache key with
    | none =>
      simp [buildConnectionRaws, hg, List.filterMap_cons, ih hser']
    | some m =>
      rw [hg] at hhead
      have hm : m.serializable = true := by simpa [Option.all] using hhead
      simp [buildConnectionRaws, hg, serialize_value, hm, List.filterMap_cons, ih hser']

/-- A successful pass of the connection-listing loop implies every cache
record it visited was serializable. -/
theorem buildConnectionRaws_ok_all_ser (cache : List (Nat × MQTTConnection))
    (l : List (Nat × NetworkConnection)) (raws : List ListConnectionRaw)
    (h : buildConnectionRaws cache l = .ok raws) :
    ∀ kv ∈ l,
      Option.all (fun m => m.serializable) (get_connection cache kv.1) = true := by
  induction l generalizing raws with
  | nil => intro kv hkv; cases hkv
  | cons kv0 rest ih =>
    obtain ⟨key, value⟩ := kv0
    intro kv hkv
    cases hg : get_connection cache key with
    | none =>
      simp only [buildConnectionRaws, hg] at h
      rcases List.mem_cons.mp hkv with rfl | hkv'
      · simp [hg, Option.all]
      · exact ih raws h kv hkv'
    | some m =>
      cases hs : serialize_value m with
      | error e =>
        simp only [buildConnectionRaws, hg, hs] at h
        cases h
      | ok mqtt_info =>
        cases hb : buildConnectionRaws cache rest with
        | error e =>
          simp only [buildConnectionRaws, hg, hs, hb] at h
          cases h
        | ok raws2 =>
          rcases List.mem_cons.mp hkv with rfl | hkv'
          · have hm : m.serializable = true := by
              cases hml : m.serializable with
              | true => rfl
              | false => simp [serialize_value, hml] at hs
            simp [hg, Option.all, hm]
          · exact ih raws2 hb kv hkv'

/-- The number of rows the listing produces equals the number of registry
connections whose key has a cache record. -/
theorem length_filterMap_cache (cache : List (Nat × MQTTConnection))
    (l : List (Nat × NetworkConnection)) :
    (l.filterMap (fun kv =>
        (get_connection cache kv.1).map (fun m => connectionRawOf kv.2 m.payload))).length
      = l.countP (fun kv => (get_connection cache kv.1).isSome) := by
  induction l with
  | nil => rfl
  | cons kv rest ih =>
    cases hg : get_connection cache kv.1 <;>
      simp [List.filterMap_cons, List.countP_cons, hg, ih]

/-! ### Claims -/

/-- C1 (counterexample): the snapshot assembled by `clusterStatusByReq` carries
seven subscription counters, one per subscription table of the registry, not
six as the claim states; on the concrete state `s0` the request succeeds and
the list of subscription-count fields of its reply has length 7 ≠ 6. -/
theorem cluster_status_subscription_counters_not_six :
    (clusterStatusByReq s0).map (fun r => (subscriptionCounters r).length) = .ok 7 ∧
    ¬(7 = 6) :=
  ⟨rfl, by decide⟩

/-- C1 (amended): for every cluster-status request that succeeds, each count
field of the returned snapshot equals the size of its corresponding registry
at the moment that registry is read, reduced modulo 2^32 by the reply's
32-bit counters (so it equals the exact size whenever that size is below
2^32): connection_num is the connection registry size, session_num the
session cache size, the seven subscription counters the sizes of the seven
subscription tables, topic_num the topic cache size, and the four
per-transport counts the sizes of the four per-transport socket tables. -/
theorem cluster_status_counts (s : BrokerState) (r : ClusterStatusReply)
    (hok : clusterStatusByReq s = .ok r) :
    r.connection_num = u32 s.connection_manager.connections.length ∧
    r.session_num = u32 s.cache_manager.session_info.length ∧
    subscriptionCounters r = (subscriptionTableSizes s.subscribe_manager).map u32 ∧
    r.topic_num = u32 s.cache_manager.topic_info.length ∧
    r.tcp_connection_num = u32 s.connection_manager.tcp_write_list.length ∧
    r.tls_connection_num = u32 s.connection_manager.tcp_tls_write_list.length ∧
    r.websocket_connection_num = u32 s.connection_manager.websocket_write_list.length ∧
    r.quic_connection_num = u32 s.connection_manager.quic_write_list.length :=
  clusterStatus_ok_counts s r hok

/-- C1 (witness): on the concrete state `s0` the request succeeds with reply
`r0` and the count equalities hold. -/
theorem cluster_status_counts_witness :
    r0.connection_num = u32 s0.connection_manager.connections.length ∧
    subscriptionCounters r0 = (subscriptionTableSizes s0.subscribe_manager).map u32 :=
  ⟨(cluster_status_counts s0 r0 rfl).1, (cluster_status_counts s0 r0 rfl).2.2.1⟩

/-- C2 (counterexample): `cluster_status` is an operation other than the
flapping-detect toggle whose failure the facade surfaces as a `cancelled`
transport status (and not as an `internal` one), refuting "no other operation
maps its failure to cancelled". -/
theorem cluster_status_error_maps_to_cancelled :
    errorStatusOf AdminOp.clusterStatus "node list unreachable"
        = some (TStatus.cancelled "node list unreachable") ∧
    ¬(AdminOp.clusterStatus = AdminOp.enableFlappingDetect) ∧
    ¬(errorStatusOf AdminOp.clusterStatus "node list unreachable"
        = some (TStatus.internal "node list unreachable")) :=
  ⟨rfl, by decide, by decide⟩

/-- C2 (amended): for every RPC of the admin facade that converts an inner
failure into a transport status itself, the failure is surfaced as an
`internal` error carrying the original error's textual description, with
exactly two exceptions — the flapping-detect toggle and the cluster-status
read, whose failures are surfaced as a `cancelled` status (also carrying the
description); no operation other than those two maps its failure to
`cancelled`. -/
theorem error_status_mapping (op : AdminOp) (e : String) (st : TStatus)
    (h : errorStatusOf op e = some st) :
    (st = TStatus.cancelled e ↔
      (op = AdminOp.clusterStatus ∨ op = AdminOp.enableFlappingDetect)) ∧
    (st = TStatus.internal e ↔
      ¬(op = AdminOp.clusterStatus ∨ op = AdminOp.enableFlappingDetect)) := by
  cases op <;> simp [errorStatusOf] at h <;> subst h <;> simp

/-- C2 (witness): the user-creation RPC surfaces a failure description as an
`internal` status and not as `cancelled`. -/
theorem error_status_mapping_witness :
    (TStatus.internal "user already exist" = TStatus.cancelled "user already exist" ↔
      (AdminOp.createUser = AdminOp.clusterStatus ∨
        AdminOp.createUser = AdminOp.enableFlappingDetect)) ∧
    (TStatus.internal "user already exist" = TStatus.internal "user already exist" ↔
      ¬(AdminOp.createUser = AdminOp.clusterStatus ∨
        AdminOp.createUser = AdminOp.enableFlappingDetect)) :=
  error_status_mapping AdminOp.createUser "user already exist"
    (TStatus.internal "user already exist") rfl

/-- C3: for every state of the connection registry and connection cache in
which the cache records reachable from the registry serialize, the
connection-listing operation succeeds (no error) and returns exactly one
entry per live registry connection whose key has an enriched cache record;
every live connection whose key is absent from the cache contributes nothing
to the reply. -/
theorem list_connection_spec (s : BrokerState)
    (hser : ∀ kv ∈ list_connect s.connection_manager,
      Option.all (fun m => m.serializable)
        (get_connection s.cache_manager.connection_info kv.1) = true) :
    listConnectionByReq s =
      .ok { list_connection_raw :=
        (list_connect s.connection_manager).filterMap (fun kv =>
          (get_connection s.cache_manager.connection_info kv.1).map
            (fun m => connectionRawOf kv.2 m.payload)) } := by
  unfold listConnectionByReq
  rw [buildConnectionRaws_eq_of_ser _ _ hser]

/-- C3 (witness): on `s0` (three live connections, cache records for keys 1
and 2 only) the listing succeeds and returns the two cached rows, silently
omitting connection 3. -/
theorem list_connection_spec_witness :
    listConnectionByReq s0 =
      .ok { list_connection_raw :=
        (list_connect s0.connection_manager).filterMap (fun kv =>
          (get_connection s0.cache_manager.connection_info kv.1).map
            (fun m => connectionRawOf kv.2 m.payload)) } :=
  list_connection_spec s0 (by decide)

/-- C4: for every successful set-cluster-config call, the acknowledgement
echoes the requested feature name and carries `is_enable = true` regardless
of the boolean value that was requested, including when the request asked to
disable the feature. -/
theorem set_cluster_config_ack_fixed_true (inner : Except String Unit)
    (req : SetClusterConfigRequest) (r : SetClusterConfigReply)
    (h : mqttBrokerSetClusterConfig inner req = .ok r) :
    r.is_enable = true ∧ r.feature_name = req.feature_name := by
  cases inner with
  | error e => exact absurd h (by simp [mqttBrokerSetClusterConfig])
  | ok u =>
    simp only [mqttBrokerSetClusterConfig, Except.ok.injEq] at h
    subst h
    exact ⟨rfl, rfl⟩

/-- C4 (witness): a request that asks to disable the `slow_sub` feature is
acknowledged with `is_enable = true` and the echoed feature name. -/
theorem set_cluster_config_ack_fixed_true_witness :
    (SetClusterConfigReply.mk "slow_sub" true).is_enable = true ∧
    (SetClusterConfigReply.mk "slow_sub" true).feature_name
      = (SetClusterConfigRequest.mk "slow_sub" false).feature_name :=
  set_cluster_config_ack_fixed_true (.ok ()) (SetClusterConfigRequest.mk "slow_sub" false)
    (SetClusterConfigReply.mk "slow_sub" true) rfl

/-- C5: when the registry holds N live connections (N below the 32-bit bound
of the reply counter), the cache holds serializable enriched records for M of
them, and the concurrent cluster-status snapshot succeeds, the snapshot
reports `connection_num = N` (registry truth, independent of the cache)
while the listing returns exactly M = (number of registry connections with a
cache record) entries, with M ≤ N. -/
theorem registry_truth_vs_cache_truth (s : BrokerState) (r : ClusterStatusReply)
    (hok : clusterStatusByReq s = .ok r)
    (hn : s.connection_manager.connections.length < 2 ^ 32)
    (hser : ∀ kv ∈ list_connect s.connection_manager,
      Option.all (fun m => m.serializable)
        (get_connection s.cache_manager.connection_info kv.1) = true) :
    r.connection_num = s.connection_manager.connections.length ∧
    ∃ reply, listConnectionByReq s = .ok reply ∧
      reply.list_connection_raw.length =
        (list_connect s.connection_manager).countP
          (fun kv => (get_connection s.cache_manager.connection_info kv.1).isSome) ∧
      reply.list_connection_raw.length ≤ s.connection_manager.connections.length := by
  constructor
  · have h1 := (clusterStatus_ok_counts s r hok).1
    rw [h1]
    exact Nat.mod_eq_of_lt hn
  · refine ⟨{ list_connection_raw :=
        (list_connect s.connection_manager).filterMap (fun kv =>
          (get_connection s.cache_manager.connection_info kv.1).map
            (fun m => connectionRawOf kv.2 m.payload)) }, ?_, ?_, ?_⟩
    · unfold listConnectionByReq
      rw [buildConnectionRaws_eq_of_ser _ _ hser]
    · exact length_filterMap_cache _ _
    · rw [length_filterMap_cache]
      exact List.countP_le_length _

/-- C5 (witness): on `s0`, N = 3 live connections and cache records for 2 of
them; the snapshot reports `connection_num = 3`. -/
theorem registry_truth_vs_cache_truth_witness :
    r0.connection_num = s0.connection_manager.connections.length :=
  (registry_truth_vs_cache_truth s0 r0 rfl (by decide) (by decide)).1

/-- C6: for every cluster-status request, if either metadata-client call (the
node-list lookup or the placement-health query) fails, the whole operation
fails with an error: the computation produces no snapshot, and being a single
pass over the state it performs no retry and builds no partial reply. -/
theorem cluster_status_fails_on_metadata_error (s : BrokerState)
    (h : isErr s.node_list_res = true ∨ isErr s.place_status_res = true) :
    isErr (clusterStatusByReq s) = true := by
  unfold clusterStatusByReq
  cases hnl : s.node_list_res with
  | error e => rfl
  | ok data =>
    rw [hnl] at h
    cases hps : s.place_status_res with
    | error e => rfl
    | ok ps =>
      rw [hps] at h
      rcases h with h | h <;> simp [isErr] at h

/-- C6 (witness): with the node-list call failing, the status request fails. -/
theorem cluster_status_fails_on_metadata_error_witness :
    isErr (clusterStatusByReq sDown) = true :=
  cluster_status_fails_on_metadata_error sDown (Or.inl rfl)

/-- C7 (counterexample): the list-connector reply is constructed with the
single field `connectors`; it contains no `total_count`, refuting "every
list RPC returns both the item collection and a total count". -/
theorem list_connector_reply_lacks_total_count :
    ¬("total_count" ∈ listReplyFields ListOp.listConnector) ∧
    listReplyFields ListOp.listConnector = ["connectors"] :=
  ⟨by decide, rfl⟩

/-- C7 (amended): among the list RPCs of the admin surface whose reply message
is built in the facade, every reply carries a `total_count` alongside the
items except exactly four: list-connector, list-schema, list-bind-schema and
list-auto-subscribe-rule, which return only the item collection. -/
theorem list_reply_total_count_partition (op : ListOp) :
    ("total_count" ∈ listReplyFields op ↔
      ¬(op = ListOp.listConnector ∨ op = ListOp.listSchema ∨
        op = ListOp.listBindSchema ∨ op = ListOp.listAutoSubscribeRule)) := by
  cases op <;> decide

/-- C8: for every connection-listing request, if some live connection's cached
record fails to serialize, the whole operation fails with an error; the
computation returns no reply at all, so in particular no partial list of the
rows serialized before the failure reaches the caller. -/
theorem list_connection_serialize_failure (s : BrokerState) (k : Nat)
    (v : NetworkConnection) (m : MQTTConnection)
    (hmem : (k, v) ∈ list_connect s.connection_manager)
    (hc : get_connection s.cache_manager.connection_info k = some m)
    (hbad : m.serializable = false) :
    isErr (listConnectionByReq s) = true := by
  cases hb : buildConnectionRaws s.cache_manager.connection_info
      (list_connect s.connection_manager) with
  | error e => simp [listConnectionByReq, hb, isErr]
  | ok raws =>
    have hall := buildConnectionRaws_ok_all_ser _ _ _ hb (k, v) hmem
    rw [hc] at hall
    simp [Option.all, hbad] at hall

/-- C8 (witness): on `s8`, connection 4 is live and its cached record does not
serialize; the listing fails. -/
theorem list_connection_serialize_failure_witness :
    isErr (listConnectionByReq s8) = true :=
  list_connection_serialize_failure s8 4 c3 mBad (by decide) (by decide) rfl

/-- C9: the flapping-detect set operation is idempotent: from any starting
state in which the metadata service is reachable, invoking it twice with the
same request leaves the same final state as invoking it once, and both
invocations return the same successful acknowledgement. -/
theorem flapping_detect_idempotent (s : BrokerState) (req : EnableFlappingDetectRequest)
    (h : s.metadata_available = true) :
    (enableFlappingDetectByReq (enableFlappingDetectByReq s req).1 req).1
        = (enableFlappingDetectByReq s req).1 ∧
    (enableFlappingDetectByReq s req).2 = .ok { is_enable := req.is_enable } ∧
    (enableFlappingDetectByReq (enableFlappingDetectByReq s req).1 req).2
        = .ok { is_enable := req.is_enable } := by
  simp [enableFlappingDetectByReq, enable_flapping_detect, h]

/-- C9 (witness): applying the disable request twice on `s0` is the same as
applying it once, and both calls acknowledge successfully. -/
theorem flapping_detect_idempotent_witness :
    (enableFlappingDetectByReq (enableFlappingDetectByReq s0 req9).1 req9).1
        = (enableFlappingDetectByReq s0 req9).1 ∧
    (enableFlappingDetectByReq s0 req9).2 = .ok { is_enable := req9.is_enable } ∧
    (enableFlappingDetectByReq (enableFlappingDetectByReq s0 req9).1 req9).2
        = .ok { is_enable := req9.is_enable } :=
  flapping_detect_idempotent s0 req9 rfl

/-- C10: for every successful enable-flapping-detect call, the
acknowledgement's `is_enable` equals the `is_enable` of the request: the
actually requested value is echoed. -/
theorem flapping_detect_reply_echoes_request (s : BrokerState)
    (req : EnableFlappingDetectRequest) (s2 : BrokerState)
    (r : EnableFlappingDetectReply)
    (h : enableFlappingDetectByReq s req = (s2, .ok r)) :
    r.is_enable = req.is_enable := by
  unfold enableFlappingDetectByReq at h
  cases he : enable_flapping_detect s req with
  | mk s3 res =>
    rw [he] at h
    cases res with
    | ok u =>
      simp only [Prod.mk.injEq, Except.ok.injEq] at h
      obtain ⟨h1, h2⟩ := h
      subst h2
      rfl
    | error e => simp at h

/-- C10 (witness): the disable request on `s0` is acknowledged with
`is_enable = false`, the requested value. -/
theorem flapping_detect_reply_echoes_request_witness :
    (EnableFlappingDetectReply.mk false).is_enable = req9.is_enable :=
  flapping_detect_reply_echoes_request s0 req9 s0set
    (EnableFlappingDetectReply.mk false) rfl

end RobustMQ
